import Mathlib

/-!
# Verification of the air-quality dashboard core (calidad-del-aire)

Shallow embedding of the core logic of `src/App.tsx`:

* the AQI computation engine (`calculateIndividualAqi`, `calculateOverallAqi`
  and the three EPA breakpoint tables),
* the alert state machine implemented by the `DashboardPage` alert effect
  (`getAqiLevel`, `POLLUTANT_THRESH`, the AQI macro-condition edge and the
  per-pollutant elevated-flag edges),
* the two-level telemetry subscription manager (`onDateChange` rewiring of
  the inner subscription).

JavaScript numbers are embedded as rationals (`ℚ`); every numeric literal in
the source is exactly representable as a rational and all arithmetic used by
the code (add, sub, mul, div by nonzero constants, comparisons, `Math.trunc`,
`Math.round`, `Math.max`) is exact on the values involved.  `NaN` is embedded
by a separate constructor of `JsNum` where a claim needs it; comparisons and
`Math.trunc` on `NaN` propagate it and `isNaN` detects it, as in JS.
-/

/-- `Math.trunc`: truncation toward zero. -/
def jsTruncQ (x : ℚ) : ℚ := if 0 ≤ x then (⌊x⌋ : ℚ) else (⌈x⌉ : ℚ)

/-- `Math.round`: round to nearest, ties toward +∞ (`Math.round(x) = ⌊x + 1/2⌋`). -/
def jsRound (x : ℚ) : ℚ := ((⌊x + 1/2⌋ : ℤ) : ℚ)

/-- A JavaScript number that may be `NaN` (used for the invalid-input claims). -/
inductive JsNum where
  | nan : JsNum
  | num (q : ℚ) : JsNum
deriving DecidableEq

/-- `isNaN`. -/
def JsNum.isNaN : JsNum → Bool
  | .nan => true
  | .num _ => false

/-- `Math.trunc` lifted to possibly-NaN numbers (`Math.trunc(NaN) = NaN`). -/
def JsNum.trunc : JsNum → JsNum
  | .nan => .nan
  | .num q => .num (jsTruncQ q)

/-- Scaling by a nonzero constant lifted to possibly-NaN numbers. -/
def JsNum.scale (c : ℚ) : JsNum → JsNum
  | .nan => .nan
  | .num q => .num (q * c)

/-- `interface AqiBreakpoint` from `src/App.tsx`. -/
structure AqiBreakpoint where
  aqi_low : ℚ
  aqi_high : ℚ
  c_low : ℚ
  c_high : ℚ
deriving DecidableEq

/-- `PM25_BREAKPOINTS` (µg/m³), EPA PM2.5 24-hour table from `src/App.tsx`. -/
def PM25_BREAKPOINTS : List AqiBreakpoint :=
  [ ⟨0, 50, 0, 12⟩,
    ⟨51, 100, 12.1, 35.4⟩,
    ⟨101, 150, 35.5, 55.4⟩,
    ⟨151, 200, 55.5, 150.4⟩,
    ⟨201, 300, 150.5, 250.4⟩,
    ⟨301, 400, 250.5, 350.4⟩,
    ⟨401, 500, 350.5, 500.4⟩ ]

/-- `O3_BREAKPOINTS` (ppm), EPA O3 8-hour table from `src/App.tsx`. -/
def O3_BREAKPOINTS : List AqiBreakpoint :=
  [ ⟨0, 50, 0, 0.054⟩,
    ⟨51, 100, 0.055, 0.070⟩,
    ⟨101, 150, 0.071, 0.085⟩,
    ⟨151, 200, 0.086, 0.105⟩,
    ⟨201, 300, 0.106, 0.200⟩ ]

/-- `CO_BREAKPOINTS` (ppm), EPA CO 8-hour table from `src/App.tsx`. -/
def CO_BREAKPOINTS : List AqiBreakpoint :=
  [ ⟨0, 50, 0, 4.4⟩,
    ⟨51, 100, 4.5, 9.4⟩,
    ⟨101, 150, 9.5, 12.4⟩,
    ⟨151, 200, 12.5, 15.4⟩,
    ⟨201, 300, 15.5, 30.4⟩,
    ⟨301, 400, 30.5, 40.4⟩,
    ⟨401, 500, 40.5, 50.4⟩ ]

/-- `calculateIndividualAqi` from `src/App.tsx` on a non-NaN concentration
(the `isNaN` branch of the guard is handled by `calculateIndividualAqiJs`).
`breakpoints[breakpoints.length - 1]` is embedded as `getLastD` with a junk
default; the source only ever calls this with the three nonempty tables. -/
def calculateIndividualAqi (concentration : ℚ) (breakpoints : List AqiBreakpoint) : ℚ :=
  if concentration < 0 then 0
  else
    match breakpoints.find? (fun b => decide (concentration ≥ b.c_low) && decide (concentration ≤ b.c_high)) with
    | none =>
        let lastBp := breakpoints.getLastD ⟨0, 0, 0, 0⟩
        if concentration > lastBp.c_high then 500 else 0
    | some bp =>
        if bp.c_high = bp.c_low then bp.aqi_low
        else jsRound ((bp.aqi_high - bp.aqi_low) / (bp.c_high - bp.c_low) * (concentration - bp.c_low) + bp.aqi_low)

/-- `calculateIndividualAqi` on a possibly-NaN concentration: the guard
`if (isNaN(concentration) || concentration < 0) return 0` returns `0` on `NaN`,
and on a plain number reduces to the non-NaN embedding. -/
def calculateIndividualAqiJs : JsNum → List AqiBreakpoint → ℚ
  | .nan, _ => 0
  | .num q, bps => calculateIndividualAqi q bps

/-- `calculateOverallAqi` from `src/App.tsx` on non-NaN inputs:
truncate PM2.5 to 1 decimal, O3 to 3 decimals, CO to 1 decimal, compute the
three individual AQIs, return their maximum. -/
def calculateOverallAqi (pm25_ugm3 o3_ppm co_ppm : ℚ) : ℚ :=
  let truncatedPm25 := jsTruncQ (pm25_ugm3 * 10) / 10
  let truncatedO3 := jsTruncQ (o3_ppm * 1000) / 1000
  let truncatedCo := jsTruncQ (co_ppm * 10) / 10
  let aqiPm25 := calculateIndividualAqi truncatedPm25 PM25_BREAKPOINTS
  let aqiO3 := calculateIndividualAqi truncatedO3 O3_BREAKPOINTS
  let aqiCo := calculateIndividualAqi truncatedCo CO_BREAKPOINTS
  max aqiPm25 (max aqiO3 aqiCo)

/-- `calculateOverallAqi` on possibly-NaN inputs (`Math.trunc`, `*` and `/`
propagate `NaN`; the individual-AQI guard absorbs it to `0`). -/
def calculateOverallAqiJs (pm25_ugm3 o3_ppm co_ppm : JsNum) : ℚ :=
  let truncatedPm25 := (pm25_ugm3.scale 10).trunc.scale (1/10)
  let truncatedO3 := (o3_ppm.scale 1000).trunc.scale (1/1000)
  let truncatedCo := (co_ppm.scale 10).trunc.scale (1/10)
  let aqiPm25 := calculateIndividualAqiJs truncatedPm25 PM25_BREAKPOINTS
  let aqiO3 := calculateIndividualAqiJs truncatedO3 O3_BREAKPOINTS
  let aqiCo := calculateIndividualAqiJs truncatedCo CO_BREAKPOINTS
  max aqiPm25 (max aqiO3 aqiCo)

/-- `getAqiLevel`'s result record (`AqiLevel` in `src/types.ts`). -/
structure AqiLevel where
  text : String
  cls : String
  className : String
deriving DecidableEq

/-- `getAqiLevel` from `src/App.tsx`. -/
def getAqiLevel (v : ℚ) : AqiLevel :=
  if v ≤ 50 then ⟨"Bueno", "good", "bg-green-100 text-green-800 border-green-300"⟩
  else if v ≤ 100 then ⟨"Moderado", "mod", "bg-yellow-100 text-yellow-800 border-yellow-300"⟩
  else if v ≤ 150 then ⟨"Sensibles", "warn", "bg-orange-100 text-orange-800 border-orange-300"⟩
  else if v ≤ 200 then ⟨"Malo", "bad", "bg-red-100 text-red-800 border-red-300"⟩
  else if v ≤ 300 then ⟨"Muy Malo", "bad", "bg-purple-100 text-purple-800 border-purple-300"⟩
  else ⟨"Peligroso", "bad", "bg-maroon-100 text-maroon-800 border-maroon-300"⟩

/-- `AQI_LEVELS` from `src/App.tsx`. -/
def AQI_LEVELS : List String :=
  ["Bueno", "Moderado", "Sensibles", "Malo", "Muy Malo", "Peligroso"]

/-- `Array.prototype.indexOf`: index of the first occurrence, `-1` if absent. -/
def jsIndexOf : List String → String → ℤ
  | [], _ => -1
  | x :: xs, s =>
      if x = s then 0
      else
        let r := jsIndexOf xs s
        if r = -1 then -1 else r + 1

/-- One entry of `POLLUTANT_THRESH` from `src/App.tsx`. -/
structure PollutantThresholds where
  warn : ℚ
  bad : ℚ
deriving DecidableEq

/-- `POLLUTANT_THRESH.pm25 = { warn: 35.5, bad: 55.5 }`. -/
def POLLUTANT_THRESH_pm25 : PollutantThresholds := ⟨35.5, 55.5⟩

/-- `POLLUTANT_THRESH.o3 = { warn: 125, bad: 200 }`. -/
def POLLUTANT_THRESH_o3 : PollutantThresholds := ⟨125, 200⟩

/-- The fields of `SensorData` (`src/types.ts`) read by the alert effect:
`latestReadings.aqi`, `latestReadings.pm25`, `latestReadings.o3`. -/
structure SensorReading where
  aqi : ℚ
  pm25 : ℚ
  o3 : ℚ

/-- `AlertRecord` (`src/types.ts`) as decided by the alert effect.  The `id`
and `ts` fields are assigned by the external log (`logAlert`) at emit time
and are not part of the alert decision, so they are not modelled here. -/
structure AlertRecord where
  type : String
  level : String
  value : ℚ
  message : String
  cls : String

/-- The alert machine state held in `DashboardPage`:
`lastAqiLevel = useRef<string | null>(null)` and
`lastPollutantFlags = useRef({ pm25: false, o3: false })` (`src/App.tsx`,
lines 285-286). -/
structure AlertState where
  lastAqiLevel : Option String
  pm25Flag : Bool
  o3Flag : Bool
deriving DecidableEq

/-- The initial alert state of a monitoring session. -/
def initialAlertState : AlertState := ⟨none, false, false⟩

/-- The body of the `Object.entries(POLLUTANT_THRESH).forEach` loop
(`src/App.tsx`, lines 311-323) for one watched pollutant: given the uppercased
key, its thresholds, the current value and the previous elevated flag, return
the new flag and the emitted alerts. -/
def pollutantStep (key : String) (thresholds : PollutantThresholds) (value : ℚ) (flag : Bool) :
    Bool × List AlertRecord :=
  if value ≥ thresholds.warn then
    if !flag then
      let level := if value ≥ thresholds.bad then "Malo" else "Sensibles"
      (true,
        [⟨key, level, value, key ++ " elevado (" ++ toString value ++ " µg/m³)",
          if level = "Malo" then "bad" else "warn"⟩])
    else (flag, [])
  else if flag then
    (false, [⟨key, "Moderado", value, key ++ " volvió a niveles aceptables", "mod"⟩])
  else (flag, [])

/-- The AQI macro-condition edge of the alert effect (`src/App.tsx`, lines
299-308): the alerts emitted from the previous stored category text and the
current reading. -/
def aqiEdgeAlerts (lastLevel : Option String) (aqi : ℚ) : List AlertRecord :=
  let currentAqi := getAqiLevel aqi
  match lastLevel with
  | none => []
  | some prev =>
      if prev ≠ currentAqi.text then
        let prevIdx := jsIndexOf AQI_LEVELS prev
        let currIdx := jsIndexOf AQI_LEVELS currentAqi.text
        if currIdx > 1 ∧ prevIdx ≤ 1 then
          [⟨"AQI", currentAqi.text, aqi, "AQI cambió a " ++ currentAqi.text, currentAqi.cls⟩]
        else if currIdx ≤ 1 ∧ prevIdx > 1 then
          [⟨"AQI", currentAqi.text, aqi, "AQI volvió a niveles aceptables", currentAqi.cls⟩]
        else []
      else []

/-- One run of the alert-evaluation effect (`src/App.tsx`, lines 296-324) on a
non-null reading: the AQI macro-condition edge, then the `pm25` and `o3`
pollutant edges in `Object.entries` insertion order.  Returns the new state
and the alerts passed to `logAlert`, in emission order. -/
def evaluate (r : SensorReading) (s : AlertState) : AlertState × List AlertRecord :=
  let currentAqi := getAqiLevel r.aqi
  let aqiAlerts := aqiEdgeAlerts s.lastAqiLevel r.aqi
  let pm25Step := pollutantStep "PM25" POLLUTANT_THRESH_pm25 r.pm25 s.pm25Flag
  let o3Step := pollutantStep "O3" POLLUTANT_THRESH_o3 r.o3 s.o3Flag
  (⟨some currentAqi.text, pm25Step.1, o3Step.1⟩,
    aqiAlerts ++ pm25Step.2 ++ o3Step.2)

/-- Feed a list of readings through `evaluate` in order, starting from `s`;
return the per-reading alert lists. -/
def evalSteps (s : AlertState) : List SensorReading → List (List AlertRecord)
  | [] => []
  | r :: rest =>
      let step := evaluate r s
      step.2 :: evalSteps step.1 rest

/-- State of the two-level telemetry subscription manager inside the
`useRealtimeData` effect (`src/App.tsx`, lines 213-275).  An inner
subscription is the pair `latestTimeRef`/`onTimeChangeCallback`; the two are
always set together, so one `Option` models them.  Each inner subscription
created over the effect's lifetime is identified by a sequence number
(`nextId` counts `db.ref(...).on(...)` calls); `tornDown` records, in order,
the ids on which `.off(...)` has been called. -/
structure SubManagerState where
  active : Option ℕ
  nextId : ℕ
  tornDown : List ℕ
deriving DecidableEq

/-- The initial manager state: `latestTimeRef = null`,
`onTimeChangeCallback = null`, nothing torn down. -/
def initialSubManagerState : SubManagerState := ⟨none, 0, []⟩

/-- `onDateChange` (`src/App.tsx`, lines 218-243) restricted to its
subscription bookkeeping: `none` is an outer snapshot with
`!dateSnap.exists()` (only `setLoading(false)` runs); on a data-bearing outer
emission, if an inner subscription is active it is `.off`-ed first, then a
new inner subscription is established on the new date key. -/
def onDateChangeStep (s : SubManagerState) (dateSnap : Option String) : SubManagerState :=
  match dateSnap with
  | none => s
  | some _ =>
      let torn :=
        match s.active with
        | some id => s.tornDown ++ [id]
        | none => s.tornDown
      ⟨some s.nextId, s.nextId + 1, torn⟩

/-- Run the subscription manager over a sequence of data-bearing outer-key
emissions, starting from the fresh state. -/
def runOuterEmissions (keys : List String) : SubManagerState :=
  keys.foldl (fun s k => onDateChangeStep s (some k)) initialSubManagerState

/-- Round to the nearest integer with ties away from zero ("round half up",
the EPA convention quoted by the spec). -/
def roundHalfAwayFromZero (x : ℚ) : ℚ :=
  if 0 ≤ x then ((⌊x + 1/2⌋ : ℤ) : ℚ) else ((⌈x - 1/2⌉ : ℤ) : ℚ)

/-- The largest `c_high` of a breakpoint table ("the table's maximum
`cHigh`"). -/
def maxCHigh (table : List AqiBreakpoint) : ℚ :=
  (table.map AqiBreakpoint.c_high).foldr max 0

/-- Modelled from the spec (§4.1, claim C2 reference definition): the EPA
piecewise AQI.  Find the breakpoint whose `[cLow, cHigh]` contains the
concentration (inclusive both ends); if found with `cHigh == cLow` return
`aqiLow`, otherwise linearly interpolate and round to the nearest integer
with ties away from zero (round half up); if no breakpoint contains it and
the concentration exceeds the table's maximum `cHigh`, return `500`;
below the minimum, return `0`. -/
def epaReferenceAqi (concentration : ℚ) (table : List AqiBreakpoint) : ℚ :=
  match table.find? (fun b => decide (b.c_low ≤ concentration) && decide (concentration ≤ b.c_high)) with
  | some bp =>
      if bp.c_high = bp.c_low then bp.aqi_low
      else
        roundHalfAwayFromZero
          ((bp.aqi_high - bp.aqi_low) / (bp.c_high - bp.c_low) * (concentration - bp.c_low) + bp.aqi_low)
  | none =>
      if concentration > maxCHigh table then 500 else 0

/-! ## Helper lemmas -/

/-- `Math.trunc` of an integer-valued rational is itself. -/
lemma jsTruncQ_intCast (n : ℤ) : jsTruncQ (n : ℚ) = n := by
  unfold jsTruncQ
  split_ifs <;> simp

/-- `Math.trunc` is idempotent. -/
lemma jsTruncQ_idem (x : ℚ) : jsTruncQ (jsTruncQ x) = jsTruncQ x := by
  unfold jsTruncQ
  split_ifs with h1 h2 h2 <;> simp_all

/-- The one-decimal truncation used for PM2.5 and CO is idempotent. -/
lemma truncOneDecimal_idem (x : ℚ) : jsTruncQ (jsTruncQ (x * 10) / 10 * 10) = jsTruncQ (x * 10) := by
  rw [div_mul_cancel₀ _ (by norm_num : (10 : ℚ) ≠ 0), jsTruncQ_idem]

/-- The three-decimal truncation used for O3 is idempotent. -/
lemma truncThreeDecimals_idem (x : ℚ) :
    jsTruncQ (jsTruncQ (x * 1000) / 1000 * 1000) = jsTruncQ (x * 1000) := by
  rw [div_mul_cancel₀ _ (by norm_num : (1000 : ℚ) ≠ 0), jsTruncQ_idem]

/-- Evaluating the same pollutant value against the flag it just produced
emits nothing and keeps the flag. -/
lemma pollutantStep_stable (key : String) (th : PollutantThresholds) (value : ℚ) (flag : Bool) :
    pollutantStep key th value (pollutantStep key th value flag).1 =
      ((pollutantStep key th value flag).1, []) := by
  unfold pollutantStep
  split_ifs <;> simp_all

/-- The AQI edge emits nothing when the stored category already matches the
current reading's category. -/
lemma aqiEdgeAlerts_stable (v : ℚ) :
    aqiEdgeAlerts (some (getAqiLevel v).text) v = [] := by
  simp [aqiEdgeAlerts]

/-- A nonpositive (truncated) concentration yields individual AQI 0 over the
PM2.5 table: negative values hit the validity guard, and 0 interpolates to 0
in the first breakpoint. -/
lemma calcAqi_nonpos_pm25 (x : ℚ) (hx : x ≤ 0) :
    calculateIndividualAqi x PM25_BREAKPOINTS = 0 := by
  rcases lt_or_eq_of_le hx with h | h
  · unfold calculateIndividualAqi
    rw [if_pos h]
  · subst h
    norm_num [calculateIndividualAqi, PM25_BREAKPOINTS, List.find?, jsRound]

/-- `Math.trunc` of a negative rational is nonpositive. -/
lemma jsTruncQ_nonpos (x : ℚ) (hx : x < 0) : jsTruncQ x ≤ 0 := by
  unfold jsTruncQ
  rw [if_neg (not_le.mpr hx)]
  have h : (⌈x⌉ : ℤ) ≤ 0 := Int.ceil_le.mpr (by exact_mod_cast hx.le)
  exact_mod_cast h

/-- Every breakpoint's `c_high` is at most the table's maximum `c_high`. -/
lemma cHigh_le_maxCHigh {bp : AqiBreakpoint} {table : List AqiBreakpoint}
    (h : bp ∈ table) : bp.c_high ≤ maxCHigh table := by
  induction table with
  | nil => cases h
  | cons b t ih =>
      rcases List.mem_cons.mp h with rfl | h'
      · exact le_max_left _ _
      · exact le_trans (ih h') (le_max_right _ _)

/-- Above the table's maximum `c_high` (with the last breakpoint carrying
that maximum), the lookup misses every breakpoint and the saturation branch
returns 500. -/
lemma calcAqi_above_max (table : List AqiBreakpoint) (q : ℚ) (hq : 0 ≤ q)
    (hgt : maxCHigh table < q)
    (hlast : (table.getLastD ⟨0, 0, 0, 0⟩).c_high = maxCHigh table) :
    calculateIndividualAqi q table = 500 := by
  unfold calculateIndividualAqi
  rw [if_neg (not_lt.mpr hq)]
  have hfind :
      table.find? (fun b => decide (q ≥ b.c_low) && decide (q ≤ b.c_high)) = none := by
    rw [List.find?_eq_none]
    intro bp hbp
    simp only [Bool.and_eq_true, decide_eq_true_eq, not_and]
    exact fun _ => not_le.mpr (lt_of_le_of_lt (cHigh_le_maxCHigh hbp) hgt)
  rw [hfind]
  simp only [hlast]
  rw [if_pos hgt]

/-- The source lookup agrees with the spec's reference piecewise definition
on every nonnegative concentration, for any well-formed table whose last
breakpoint carries the maximal `c_high`. -/
lemma calcAqi_eq_epaReference (table : List AqiBreakpoint)
    (hwf : ∀ bp ∈ table, 0 ≤ bp.aqi_low ∧ bp.aqi_low ≤ bp.aqi_high ∧ bp.c_low ≤ bp.c_high)
    (hlast : (table.getLastD ⟨0, 0, 0, 0⟩).c_high = maxCHigh table)
    (q : ℚ) (hq : 0 ≤ q) :
    calculateIndividualAqi q table = epaReferenceAqi q table := by
  unfold calculateIndividualAqi epaReferenceAqi
  rw [if_neg (not_lt.mpr hq)]
  cases hfind : table.find? (fun b => decide (q ≥ b.c_low) && decide (q ≤ b.c_high)) with
  | none =>
      dsimp only
      rw [hlast]
  | some bp =>
      have hmem := List.mem_of_find?_eq_some hfind
      have hpred := List.find?_some hfind
      simp only [Bool.and_eq_true, decide_eq_true_eq, ge_iff_le] at hpred
      obtain ⟨hpl, hph⟩ := hpred
      obtain ⟨h0, hle, hcc⟩ := hwf bp hmem
      dsimp only
      by_cases hdeg : bp.c_high = bp.c_low
      · simp [hdeg]
      · have hv :
            0 ≤ (bp.aqi_high - bp.aqi_low) / (bp.c_high - bp.c_low) * (q - bp.c_low) + bp.aqi_low :=
          add_nonneg
            (mul_nonneg (div_nonneg (sub_nonneg.mpr hle) (sub_nonneg.mpr hcc))
              (sub_nonneg.mpr hpl)) h0
        rw [if_neg hdeg, if_neg hdeg, roundHalfAwayFromZero, if_pos hv, jsRound]

/-! ## Claim theorems -/

/-- C1: `calculateOverallAqi` returns the maximum of the three individual
pollutant AQIs, each computed on the truncated concentration against its own
breakpoint table — never an average; in particular
`overallAqi(35.4, 0, 0) = individualAqi(35.4, PM25)` (the dominant
pollutant), and `overallAqi(12, 0.20, 50)` is the maximum of the three
individual AQIs of the untruncated inputs. -/
theorem overallAqi_is_max_of_individual_aqis :
    (∀ pm25 o3 co : ℚ,
        calculateOverallAqi pm25 o3 co =
          max (calculateIndividualAqi (jsTruncQ (pm25 * 10) / 10) PM25_BREAKPOINTS)
            (max (calculateIndividualAqi (jsTruncQ (o3 * 1000) / 1000) O3_BREAKPOINTS)
              (calculateIndividualAqi (jsTruncQ (co * 10) / 10) CO_BREAKPOINTS))) ∧
    calculateOverallAqi 35.4 0 0 = calculateIndividualAqi 35.4 PM25_BREAKPOINTS ∧
    calculateOverallAqi 12 0.20 50 =
      max (calculateIndividualAqi 12 PM25_BREAKPOINTS)
        (max (calculateIndividualAqi 0.20 O3_BREAKPOINTS)
          (calculateIndividualAqi 50 CO_BREAKPOINTS)) := by
  refine ⟨fun pm25 o3 co => rfl, ?_, ?_⟩ <;>
    norm_num [calculateOverallAqi, calculateIndividualAqi, PM25_BREAKPOINTS, O3_BREAKPOINTS,
      CO_BREAKPOINTS, List.find?, jsRound, jsTruncQ]

/-- C5: `calculateOverallAqi` truncates each input toward zero before any
table lookup — PM2.5 to 1 decimal, O3 to 3 decimals, CO to 1 decimal — so
re-truncating the inputs changes nothing, truncation of `12.19` gives `12.1`
(not `12.2`), and `overallAqi(12.19, o3, co) = overallAqi(12.1, o3, co)` for
every `o3` and `co`. -/
theorem overallAqi_truncates_before_lookup :
    (∀ pm25 o3 co : ℚ,
        calculateOverallAqi pm25 o3 co =
          calculateOverallAqi (jsTruncQ (pm25 * 10) / 10) (jsTruncQ (o3 * 1000) / 1000)
            (jsTruncQ (co * 10) / 10)) ∧
    jsTruncQ (12.19 * 10) / 10 = 12.1 ∧
    (∀ o3 co : ℚ, calculateOverallAqi 12.19 o3 co = calculateOverallAqi 12.1 o3 co) := by
  refine ⟨fun pm25 o3 co => ?_, by norm_num [jsTruncQ], fun o3 co => ?_⟩
  · unfold calculateOverallAqi
    rw [truncOneDecimal_idem, truncThreeDecimals_idem, truncOneDecimal_idem]
  · unfold calculateOverallAqi
    norm_num [jsTruncQ]

/-- C3: from a fresh alert state, the AQI reading sequence
`40 → 120 → 180 → 90` (with both watched pollutants at 0) emits exactly two
AQI alerts: one on the 40→120 step (acceptable→concerning, level text
`Sensibles`) and one on the 180→90 step (concerning→acceptable, level text
`Moderado`); the 120→180 step, where both categories are in the concerning
macro-condition, emits none. -/
theorem aqiAlert_hysteresis_scenario :
    (evalSteps initialAlertState
        [⟨40, 0, 0⟩, ⟨120, 0, 0⟩, ⟨180, 0, 0⟩, ⟨90, 0, 0⟩]).map
      (List.map fun a => (a.type, a.level)) =
      [[], [("AQI", "Sensibles")], [], [("AQI", "Moderado")]] := by
  norm_num [evalSteps, evaluate, aqiEdgeAlerts, pollutantStep, getAqiLevel,
    initialAlertState, POLLUTANT_THRESH_pm25, POLLUTANT_THRESH_o3, AQI_LEVELS, jsIndexOf]
  simp

/-- C4: for the watched pollutant `pm25` (`warn = 35.5`, `bad = 55.5`),
starting with the elevated flag false, the value sequence `10 → 40 → 60 → 30`
emits exactly one warn-tier alert at step 2 (level text `Sensibles`, since
`40 < 55.5`), no alert at step 3 even though the value crosses into the
bad tier, and exactly one returned-to-acceptable alert at step 4 (level text
`Moderado`). -/
theorem pollutantAlert_edge_scenario :
    (evalSteps initialAlertState
        [⟨0, 10, 0⟩, ⟨0, 40, 0⟩, ⟨0, 60, 0⟩, ⟨0, 30, 0⟩]).map
      (List.map fun a => (a.type, a.level)) =
      [[], [("PM25", "Sensibles")], [], [("PM25", "Moderado")]] := by
  norm_num [evalSteps, evaluate, aqiEdgeAlerts, pollutantStep, getAqiLevel,
    initialAlertState, POLLUTANT_THRESH_pm25, POLLUTANT_THRESH_o3, AQI_LEVELS, jsIndexOf]

/-- C8: `evaluate` is idempotent on identical inputs — feeding the same
reading again immediately after the first call emits no alerts and leaves the
whole alert state (stored AQI category and both elevated flags) unchanged. -/
theorem evaluate_idempotent (r : SensorReading) (s : AlertState) :
    evaluate r (evaluate r s).1 = ((evaluate r s).1, []) := by
  have hpm := pollutantStep_stable "PM25" POLLUTANT_THRESH_pm25 r.pm25 s.pm25Flag
  have ho3 := pollutantStep_stable "O3" POLLUTANT_THRESH_o3 r.o3 s.o3Flag
  simp [evaluate, aqiEdgeAlerts_stable, hpm, ho3]

/-- C10: on the very first reading of a session, no AQI macro-condition alert
is emitted regardless of the reading's category (the previous-category state
starts empty), while the per-pollutant elevated flags start false, so the
same first reading emits a pollutant alert exactly when its watched value is
at or above the warn threshold (`35.5` for pm25, `125` for o3). -/
theorem firstReading_alert_behaviour (r : SensorReading) :
    ((evaluate r initialAlertState).2.filter (fun a => a.type == "AQI")) = [] ∧
    (((evaluate r initialAlertState).2.filter (fun a => a.type == "PM25")).length = 1 ↔
      (35.5 : ℚ) ≤ r.pm25) ∧
    (((evaluate r initialAlertState).2.filter (fun a => a.type == "O3")).length = 1 ↔
      (125 : ℚ) ≤ r.o3) := by
  unfold evaluate initialAlertState aqiEdgeAlerts pollutantStep
  simp [POLLUTANT_THRESH_pm25, POLLUTANT_THRESH_o3]
  constructor <;> split_ifs <;> simp_all

/-- C2: on every nonnegative concentration, `calculateIndividualAqi` agrees
with the spec's reference EPA piecewise definition over each of the three
tables (containing breakpoint, degenerate bucket, interpolation rounded half
up, saturation to 500 above the table maximum); in particular over PM2.5:
`individualAqi(0) = 0`, `individualAqi(12.0) = 50`, `individualAqi(12.1) = 51`
(boundaries do not double-count) and `individualAqi(600) = 500`. -/
theorem individualAqi_matches_epa_reference (q : ℚ) (hq : 0 ≤ q) :
    calculateIndividualAqi q PM25_BREAKPOINTS = epaReferenceAqi q PM25_BREAKPOINTS ∧
    calculateIndividualAqi q O3_BREAKPOINTS = epaReferenceAqi q O3_BREAKPOINTS ∧
    calculateIndividualAqi q CO_BREAKPOINTS = epaReferenceAqi q CO_BREAKPOINTS ∧
    calculateIndividualAqi 0 PM25_BREAKPOINTS = 0 ∧
    calculateIndividualAqi 12 PM25_BREAKPOINTS = 50 ∧
    calculateIndividualAqi 12.1 PM25_BREAKPOINTS = 51 ∧
    calculateIndividualAqi 600 PM25_BREAKPOINTS = 500 := by
  refine ⟨calcAqi_eq_epaReference _ ?_ ?_ q hq, calcAqi_eq_epaReference _ ?_ ?_ q hq,
    calcAqi_eq_epaReference _ ?_ ?_ q hq, ?_, ?_, ?_, ?_⟩
  · intro bp hbp
    simp only [PM25_BREAKPOINTS, List.mem_cons, List.not_mem_nil, or_false] at hbp
    rcases hbp with rfl | rfl | rfl | rfl | rfl | rfl | rfl <;> norm_num
  · norm_num [PM25_BREAKPOINTS, maxCHigh]
  · intro bp hbp
    simp only [O3_BREAKPOINTS, List.mem_cons, List.not_mem_nil, or_false] at hbp
    rcases hbp with rfl | rfl | rfl | rfl | rfl <;> norm_num
  · norm_num [O3_BREAKPOINTS, maxCHigh]
  · intro bp hbp
    simp only [CO_BREAKPOINTS, List.mem_cons, List.not_mem_nil, or_false] at hbp
    rcases hbp with rfl | rfl | rfl | rfl | rfl | rfl | rfl <;> norm_num
  · norm_num [CO_BREAKPOINTS, maxCHigh]
  all_goals norm_num [calculateIndividualAqi, PM25_BREAKPOINTS, List.find?, jsRound]

/-- Witness for C2 at the boundary concentration 12.1. -/
theorem individualAqi_matches_epa_reference_witness :
    calculateIndividualAqi 12.1 PM25_BREAKPOINTS = epaReferenceAqi 12.1 PM25_BREAKPOINTS :=
  (individualAqi_matches_epa_reference 12.1 (by norm_num)).1

/-- C6: over the PM2.5 table, coverage is total by construction at the
table's 0.1 reporting granularity — every concentration `n/10` is contained
in some breakpoint, or is below the table minimum (yielding 0), or is above
the table maximum (yielding 500); a lookup miss strictly inside the declared
range can only happen off-granularity, e.g. at 12.05, which no breakpoint
contains and which only the defensive no-breakpoint branch catches
(returning 0 rather than crashing). -/
theorem pm25_coverage_total_with_defensive_guard :
    (∀ n : ℕ,
        (∃ bp ∈ PM25_BREAKPOINTS, bp.c_low ≤ (n : ℚ) / 10 ∧ (n : ℚ) / 10 ≤ bp.c_high) ∨
          ((n : ℚ) / 10 < 0 ∧ calculateIndividualAqi ((n : ℚ) / 10) PM25_BREAKPOINTS = 0) ∨
          (maxCHigh PM25_BREAKPOINTS < (n : ℚ) / 10 ∧
            calculateIndividualAqi ((n : ℚ) / 10) PM25_BREAKPOINTS = 500)) ∧
    (¬∃ bp ∈ PM25_BREAKPOINTS, bp.c_low ≤ (12.05 : ℚ) ∧ (12.05 : ℚ) ≤ bp.c_high) ∧
    calculateIndividualAqi 12.05 PM25_BREAKPOINTS = 0 := by
  refine ⟨fun n => ?_, ?_, ?_⟩
  · have h10 : (0 : ℚ) < 10 := by norm_num
    rcases le_or_lt n 120 with h1 | h1
    · have hc : ((n : ℚ)) ≤ 120 := by exact_mod_cast h1
      have hlow : (0 : ℚ) ≤ (n : ℚ) / 10 := by positivity
      have hhigh : (n : ℚ) / 10 ≤ (12 : ℚ) := by rw [div_le_iff₀ h10]; linarith
      exact Or.inl ⟨⟨0, 50, 0, 12⟩, by norm_num [PM25_BREAKPOINTS], hlow, hhigh⟩
    rcases le_or_lt n 354 with h2 | h2
    · have hc1 : (121 : ℚ) ≤ (n : ℚ) := by exact_mod_cast h1
      have hc2 : ((n : ℚ)) ≤ 354 := by exact_mod_cast h2
      have hlow : (12.1 : ℚ) ≤ (n : ℚ) / 10 := by rw [le_div_iff₀ h10]; linarith
      have hhigh : (n : ℚ) / 10 ≤ (35.4 : ℚ) := by rw [div_le_iff₀ h10]; linarith
      exact Or.inl ⟨⟨51, 100, 12.1, 35.4⟩, by norm_num [PM25_BREAKPOINTS], hlow, hhigh⟩
    rcases le_or_lt n 554 with h3 | h3
    · have hc1 : (355 : ℚ) ≤ (n : ℚ) := by exact_mod_cast h2
      have hc2 : ((n : ℚ)) ≤ 554 := by exact_mod_cast h3
      have hlow : (35.5 : ℚ) ≤ (n : ℚ) / 10 := by rw [le_div_iff₀ h10]; linarith
      have hhigh : (n : ℚ) / 10 ≤ (55.4 : ℚ) := by rw [div_le_iff₀ h10]; linarith
      exact Or.inl ⟨⟨101, 150, 35.5, 55.4⟩, by norm_num [PM25_BREAKPOINTS], hlow, hhigh⟩
    rcases le_or_lt n 1504 with h4 | h4
    · have hc1 : (555 : ℚ) ≤ (n : ℚ) := by exact_mod_cast h3
      have hc2 : ((n : ℚ)) ≤ 1504 := by exact_mod_cast h4
      have hlow : (55.5 : ℚ) ≤ (n : ℚ) / 10 := by rw [le_div_iff₀ h10]; linarith
      have hhigh : (n : ℚ) / 10 ≤ (150.4 : ℚ) := by rw [div_le_iff₀ h10]; linarith
      exact Or.inl ⟨⟨151, 200, 55.5, 150.4⟩, by norm_num [PM25_BREAKPOINTS], hlow, hhigh⟩
    rcases le_or_lt n 2504 with h5 | h5
    · have hc1 : (1505 : ℚ) ≤ (n : ℚ) := by exact_mod_cast h4
      have hc2 : ((n : ℚ)) ≤ 2504 := by exact_mod_cast h5
      have hlow : (150.5 : ℚ) ≤ (n : ℚ) / 10 := by rw [le_div_iff₀ h10]; linarith
      have hhigh : (n : ℚ) / 10 ≤ (250.4 : ℚ) := by rw [div_le_iff₀ h10]; linarith
      exact Or.inl ⟨⟨201, 300, 150.5, 250.4⟩, by norm_num [PM25_BREAKPOINTS], hlow, hhigh⟩
    rcases le_or_lt n 3504 with h6 | h6
    · have hc1 : (2505 : ℚ) ≤ (n : ℚ) := by exact_mod_cast h5
      have hc2 : ((n : ℚ)) ≤ 3504 := by exact_mod_cast h6
      have hlow : (250.5 : ℚ) ≤ (n : ℚ) / 10 := by rw [le_div_iff₀ h10]; linarith
      have hhigh : (n : ℚ) / 10 ≤ (350.4 : ℚ) := by rw [div_le_iff₀ h10]; linarith
      exact Or.inl ⟨⟨301, 400, 250.5, 350.4⟩, by norm_num [PM25_BREAKPOINTS], hlow, hhigh⟩
    rcases le_or_lt n 5004 with h7 | h7
    · have hc1 : (3505 : ℚ) ≤ (n : ℚ) := by exact_mod_cast h6
      have hc2 : ((n : ℚ)) ≤ 5004 := by exact_mod_cast h7
      have hlow : (350.5 : ℚ) ≤ (n : ℚ) / 10 := by rw [le_div_iff₀ h10]; linarith
      have hhigh : (n : ℚ) / 10 ≤ (500.4 : ℚ) := by rw [div_le_iff₀ h10]; linarith
      exact Or.inl ⟨⟨401, 500, 350.5, 500.4⟩, by norm_num [PM25_BREAKPOINTS], hlow, hhigh⟩
    · have hc : (5005 : ℚ) ≤ (n : ℚ) := by exact_mod_cast h7
      have hmax : maxCHigh PM25_BREAKPOINTS = 500.4 := by norm_num [PM25_BREAKPOINTS, maxCHigh]
      have hgt : maxCHigh PM25_BREAKPOINTS < (n : ℚ) / 10 := by
        rw [hmax, lt_div_iff₀ h10]; linarith
      exact Or.inr (Or.inr ⟨hgt,
        calcAqi_above_max _ _ (by positivity) hgt (by norm_num [PM25_BREAKPOINTS, maxCHigh])⟩)
  · norm_num [PM25_BREAKPOINTS]
  · norm_num [calculateIndividualAqi, PM25_BREAKPOINTS, List.find?, jsRound]

/-- C7: `calculateIndividualAqi` on `NaN` or any negative concentration
returns 0 for every breakpoint table, and such an invalid pm25 input to
`calculateOverallAqi` degrades only that pollutant's contribution to 0:
the overall AQI equals the one computed with that pollutant replaced by 0,
so the other two pollutants are still computed. -/
theorem invalid_input_degrades_to_zero (c : JsNum) (bps : List AqiBreakpoint) (o3 co : JsNum)
    (h : c = JsNum.nan ∨ ∃ q, c = JsNum.num q ∧ q < 0) :
    calculateIndividualAqiJs c bps = 0 ∧
    calculateOverallAqiJs c o3 co = calculateOverallAqiJs (JsNum.num 0) o3 co := by
  have hzero : calculateIndividualAqi (jsTruncQ (0 * 10) * (1 / 10 : ℚ)) PM25_BREAKPOINTS = 0 := by
    apply calcAqi_nonpos_pm25
    norm_num [jsTruncQ]
  rcases h with rfl | ⟨q, rfl, hq⟩
  · refine ⟨rfl, ?_⟩
    unfold calculateOverallAqiJs
    simp only [JsNum.scale, JsNum.trunc, calculateIndividualAqiJs]
    rw [hzero]
  · constructor
    · simp only [calculateIndividualAqiJs, calculateIndividualAqi]
      rw [if_pos hq]
    · unfold calculateOverallAqiJs
      simp only [JsNum.scale, JsNum.trunc, calculateIndividualAqiJs]
      rw [hzero]
      have hneg : calculateIndividualAqi (jsTruncQ (q * 10) * (1 / 10 : ℚ)) PM25_BREAKPOINTS = 0 := by
        apply calcAqi_nonpos_pm25
        have ht : jsTruncQ (q * 10) ≤ 0 := jsTruncQ_nonpos _ (by linarith)
        linarith
      rw [hneg]

/-- Witness for C7: a `NaN` pm25 input yields individual AQI 0 and does not
block the overall computation from the other pollutants. -/
theorem invalid_input_degrades_to_zero_witness :
    calculateIndividualAqiJs JsNum.nan PM25_BREAKPOINTS = 0 ∧
    calculateOverallAqiJs JsNum.nan (JsNum.num 0.06) (JsNum.num 5) =
      calculateOverallAqiJs (JsNum.num 0) (JsNum.num 0.06) (JsNum.num 5) :=
  invalid_input_degrades_to_zero JsNum.nan PM25_BREAKPOINTS (JsNum.num 0.06) (JsNum.num 5)
    (Or.inl rfl)

/-- C9: over any nonempty sequence of data-bearing outer-key emissions, the
subscription manager replaces rather than accumulates: exactly one inner
subscription (the most recently established one) is active, and the torn-down
ids are exactly the predecessors, each exactly once, in order. -/
theorem subscription_rewire_replaces (keys : List String) (h : keys ≠ []) :
    (runOuterEmissions keys).active = some (keys.length - 1) ∧
    (runOuterEmissions keys).nextId = keys.length ∧
    (runOuterEmissions keys).tornDown = List.range (keys.length - 1) := by
  revert h
  induction keys using List.reverseRecOn with
  | nil => intro h; cases h rfl
  | append_singleton ys k ih =>
      intro _
      rw [runOuterEmissions, List.foldl_append]
      rcases eq_or_ne ys [] with rfl | hys
      · simp [onDateChangeStep, initialSubManagerState]
      · obtain ⟨ha, hn, ht⟩ := ih hys
        rw [show List.foldl (fun s k => onDateChangeStep s (some k)) initialSubManagerState ys =
          runOuterEmissions ys from rfl]
        have hlen : ys.length - 1 + 1 = ys.length := Nat.succ_pred_eq_of_pos
          (List.length_pos.mpr hys)
        simp only [List.foldl_cons, List.foldl_nil, onDateChangeStep, ha, hn, ht,
          List.length_append, List.length_singleton]
        refine ⟨by trivial, by trivial, ?_⟩
        have hpos : 1 ≤ ys.length := List.length_pos.mpr hys
        have h2 : ys.length + 1 - 1 = (ys.length - 1) + 1 := by omega
        rw [h2, List.range_succ]

/-- Witness for C9: after three outer-key emissions (two successive changes),
inner subscription 2 is the single active one and subscriptions 0 and 1 were
each torn down exactly once. -/
theorem subscription_rewire_replaces_witness :
    (runOuterEmissions ["2024-01-01", "2024-01-02", "2024-01-03"]).active = some 2 ∧
    (runOuterEmissions ["2024-01-01", "2024-01-02", "2024-01-03"]).nextId = 3 ∧
    (runOuterEmissions ["2024-01-01", "2024-01-02", "2024-01-03"]).tornDown = [0, 1] := by
  have h := subscription_rewire_replaces ["2024-01-01", "2024-01-02", "2024-01-03"] (by simp)
  simpa [List.range_succ] using h
